import Mathlib

/-!
Shallow embedding of the matchmaking scheduler of `lib/matchmaking.py`
(slot/lane reservation tracker, challenge-eligibility timers, the per-tick
`challenge` decision flow, opponent weighting, and `game_category`), with
theorems checking the natural-language specification against it.

External collaborators (the Lichess web API, the random sampler, logging)
are modelled as oracle inputs; timers, which live in `lib/timer.py`
(absent from the embedded sources), are modelled from the spec.
-/

namespace LichessBot

/-! ## Speed classification (`lib/matchmaking.py`, module level) -/

/-- Embeds `BOT_SHORT_SPEEDS = {"ultraBullet", "bullet", "blitz"}`. -/
def BOT_SHORT_SPEEDS : List String := ["ultraBullet", "bullet", "blitz"]

/-- Embeds `BOT_LONG_SPEEDS = {"rapid", "classical"}`. -/
def BOT_LONG_SPEEDS : List String := ["rapid", "classical"]

/-- Embeds `CORRESPONDENCE_SPEED = "correspondence"`. -/
def CORRESPONDENCE_SPEED : String := "correspondence"

/-- Embeds `bot_lane_for_speed`: classify a bot game speed as short or long. -/
def bot_lane_for_speed (speed : String) : String :=
  if speed ∈ BOT_SHORT_SPEEDS then "short" else "long"

/-- Embeds `is_correspondence_speed`. -/
def is_correspondence_speed (speed : String) : Bool :=
  speed == CORRESPONDENCE_SPEED

/-! ## Rating-category classification (`game_category`, lines 629-650) -/

/-- Embeds `game_category(variant, base_time, increment, num_days)`:
the per-variant, per-speed rating pool of a game. -/
def game_category (variant : String) (base_time increment num_days : Nat) : String :=
  let game_duration := base_time + increment * 40
  if variant ≠ "standard" then variant
  else if num_days ≠ 0 then "correspondence"
  else if game_duration < 179 then "bullet"
  else if game_duration < 479 then "blitz"
  else if game_duration < 1499 then "rapid"
  else "classical"

/-! ## Association-list model of the Python dict `slot_by_game_id`

Python dict equality is content equality with unique keys; the operations
below (insert replaces the old binding, erase filters the key out) keep
keys unique, and all reads used by the tracker (key membership, counting
values) are order-insensitive. -/

/-- Mapping from game/challenge identifiers to lane names. -/
abbrev SlotMap : Type := List (String × String)

/-- Dict assignment `m[k] = v`: the new binding replaces any old one. -/
def SlotMap.insert (m : SlotMap) (k v : String) : SlotMap :=
  (k, v) :: List.filter (fun p => p.1 ≠ k) m

/-- Dict removal `m.pop(k, None)`. -/
def SlotMap.erase (m : SlotMap) (k : String) : SlotMap :=
  List.filter (fun p => p.1 ≠ k) m

/-- Dict key membership `k in m`. -/
def SlotMap.hasKey (m : SlotMap) (k : String) : Bool :=
  List.any m (fun p => p.1 == k)

/-- Occurrences of a value: `sum(1 for slot in m.values() if slot == v)`. -/
def SlotMap.countVal (m : SlotMap) (v : String) : Nat :=
  List.length (List.filter (fun p => p.2 == v) m)

/-! ## The slot tracker (`MatchmakingSlots`, lines 69-219) -/

/-- Embeds the `MatchmakingSlots` dataclass state.  The pending sets are
Python `set[str]`, modelled as `Finset String`. -/
structure MatchmakingSlots where
  max_games : Nat
  enabled : Bool
  slot_by_game_id : SlotMap
  pending_outgoing_challenges : Finset String
  pending_outgoing_correspondence : Finset String
deriving DecidableEq

namespace MatchmakingSlots

/-- Embeds construction plus `__post_init__`: `enabled = (max_games == 3)`. -/
def init (max_games : Nat) : MatchmakingSlots :=
  { max_games := max_games
    enabled := max_games == 3
    slot_by_game_id := []
    pending_outgoing_challenges := ∅
    pending_outgoing_correspondence := ∅ }

/-- Embeds `_slot_for_game(is_bot_game, speed)`. -/
def _slot_for_game (s : MatchmakingSlots) (is_bot_game : Bool) (speed : String) : String :=
  if is_correspondence_speed speed then CORRESPONDENCE_SPEED
  else if !s.enabled then "any"
  else if !is_bot_game then "human"
  else "bot_" ++ bot_lane_for_speed speed

/-- Embeds `reserve_game(game_id, is_bot_game, speed)`. -/
def reserve_game (s : MatchmakingSlots) (game_id : String) (is_bot_game : Bool)
    (speed : String) : MatchmakingSlots :=
  if !s.enabled then s
  else
    { s with
      slot_by_game_id := s.slot_by_game_id.insert game_id (s._slot_for_game is_bot_game speed)
      pending_outgoing_challenges := s.pending_outgoing_challenges.erase game_id
      pending_outgoing_correspondence := s.pending_outgoing_correspondence.erase game_id }

/-- Embeds `reserve_outgoing_challenge(challenge_id, speed)`. -/
def reserve_outgoing_challenge (s : MatchmakingSlots) (challenge_id : String)
    (speed : String) : MatchmakingSlots :=
  if !s.enabled then s
  else
    let s1 := { s with
      slot_by_game_id := s.slot_by_game_id.insert challenge_id (s._slot_for_game true speed) }
    if is_correspondence_speed speed then
      { s1 with pending_outgoing_correspondence := insert challenge_id s1.pending_outgoing_correspondence }
    else
      { s1 with pending_outgoing_challenges := insert challenge_id s1.pending_outgoing_challenges }

/-- Embeds `confirm_game_start(game_id)`. -/
def confirm_game_start (s : MatchmakingSlots) (game_id : String) : MatchmakingSlots :=
  if !s.enabled then s
  else
    { s with
      pending_outgoing_challenges := s.pending_outgoing_challenges.erase game_id
      pending_outgoing_correspondence := s.pending_outgoing_correspondence.erase game_id }

/-- Embeds `release(game_or_challenge_id)`. -/
def release (s : MatchmakingSlots) (game_or_challenge_id : String) : MatchmakingSlots :=
  if !s.enabled then s
  else
    { s with
      pending_outgoing_challenges := s.pending_outgoing_challenges.erase game_or_challenge_id
      pending_outgoing_correspondence := s.pending_outgoing_correspondence.erase game_or_challenge_id
      slot_by_game_id := s.slot_by_game_id.erase game_or_challenge_id }

/-- Embeds `has_reservation(game_id)`. -/
def has_reservation (s : MatchmakingSlots) (game_id : String) : Bool :=
  if !s.enabled then false
  else s.slot_by_game_id.hasKey game_id

/-- Embeds `used_slots(active_games)`. -/
def used_slots (s : MatchmakingSlots) (active_games : Finset String) : Nat :=
  if !s.enabled then active_games.card
  else
    let pending := (s.pending_outgoing_challenges.filter (fun challenge_id => challenge_id ∉ active_games)).card
    active_games.card + pending

/-- Embeds `has_correspondence_reservation()`. -/
def has_correspondence_reservation (s : MatchmakingSlots) : Bool :=
  if !s.enabled then false
  else List.any s.slot_by_game_id (fun p => p.2 == CORRESPONDENCE_SPEED)

/-- Embeds `needs_correspondence_game()`. -/
def needs_correspondence_game (s : MatchmakingSlots) : Bool :=
  s.enabled && !s.has_correspondence_reservation

/-- Embeds `correspondence_reservation_count()`. -/
def correspondence_reservation_count (s : MatchmakingSlots) : Nat :=
  if !s.enabled then 0
  else s.slot_by_game_id.countVal CORRESPONDENCE_SPEED

/-- Embeds `_bot_lane_counts()`. -/
def _bot_lane_counts (s : MatchmakingSlots) : Nat × Nat :=
  if !s.enabled then (0, 0)
  else (s.slot_by_game_id.countVal "bot_short", s.slot_by_game_id.countVal "bot_long")

/-- Embeds `can_accept_human(active_games)`. -/
def can_accept_human (s : MatchmakingSlots) (active_games : Finset String) : Bool :=
  s.used_slots active_games < s.max_games

/-- Embeds `can_accept_correspondence(active_games)`. -/
def can_accept_correspondence (s : MatchmakingSlots) (active_games : Finset String) : Bool :=
  if !s.enabled then s.used_slots active_games < s.max_games
  else true

/-- Embeds `can_accept_bot_speed(speed, active_games)`. -/
def can_accept_bot_speed (s : MatchmakingSlots) (speed : String)
    (active_games : Finset String) : Bool :=
  if is_correspondence_speed speed then s.can_accept_correspondence active_games
  else if s.used_slots active_games ≥ s.max_games then false
  else if !s.enabled then true
  else
    let counts := s._bot_lane_counts
    let short_count := counts.1
    let long_count := counts.2
    if short_count + long_count ≥ 2 then false
    else
      let lane := bot_lane_for_speed speed
      (lane == "short" && short_count == 0) || (lane == "long" && long_count == 0)

/-- Embeds `available_bot_lanes(active_games)`. -/
def available_bot_lanes (s : MatchmakingSlots) (active_games : Finset String) : Finset String :=
  if s.used_slots active_games ≥ s.max_games then ∅
  else if !s.enabled then {"short", "long"}
  else
    let counts := s._bot_lane_counts
    let short_count := counts.1
    let long_count := counts.2
    if short_count + long_count ≥ 2 then ∅
    else
      let lanes0 : Finset String := ∅
      let lanes1 := if short_count = 0 then insert "short" lanes0 else lanes0
      if long_count = 0 then insert "long" lanes1 else lanes1

/-- Embeds `can_start_correspondence_move(active_games)`. -/
def can_start_correspondence_move (s : MatchmakingSlots) (active_games : Finset String) : Bool :=
  if s.used_slots active_games ≥ s.max_games then false
  else if !s.enabled then true
  else !(decide (s.available_bot_lanes active_games = ∅))

end MatchmakingSlots

/-- Modelled from the spec: an incoming challenge, reduced to the two fields
`can_accept_challenge` dispatches on — its speed and whether the challenger
is a bot account (`lib/model.py` is not among the embedded sources). -/
structure Challenge where
  speed : String
  challenger_is_bot : Bool
deriving DecidableEq

/-- Embeds `can_accept_challenge(challenge, active_games)`. -/
def MatchmakingSlots.can_accept_challenge (s : MatchmakingSlots) (challenge : Challenge)
    (active_games : Finset String) : Bool :=
  if is_correspondence_speed challenge.speed then s.can_accept_correspondence active_games
  else if challenge.challenger_is_bot then s.can_accept_bot_speed challenge.speed active_games
  else s.can_accept_human active_games

/-! ## Operation sequences over the tracker, for reachability statements -/

/-- One public mutating operation of `MatchmakingSlots`. -/
inductive SlotOp where
  | reserveGame (id : String) (is_bot_game : Bool) (speed : String)
  | reserveOutgoingChallenge (id : String) (speed : String)
  | confirmGameStart (id : String)
  | releaseOp (id : String)
deriving DecidableEq

/-- Apply one public operation to a tracker state. -/
def slotApply (s : MatchmakingSlots) (op : SlotOp) : MatchmakingSlots :=
  match op with
  | SlotOp.reserveGame id is_bot_game speed => s.reserve_game id is_bot_game speed
  | SlotOp.reserveOutgoingChallenge id speed => s.reserve_outgoing_challenge id speed
  | SlotOp.confirmGameStart id => s.confirm_game_start id
  | SlotOp.releaseOp id => s.release id

/-- State reached from the empty tracker by a sequence of public operations. -/
def slotRun (max_games : Nat) (ops : List SlotOp) : MatchmakingSlots :=
  List.foldl slotApply (MatchmakingSlots.init max_games) ops

/-- Representation invariant of the tracker: every identifier in a pending
set is also a key of the reservation mapping.  This is the Python state
space carved out by the public API (see the reachability theorem below). -/
def SlotWF (s : MatchmakingSlots) : Prop :=
  (∀ id ∈ s.pending_outgoing_challenges, s.slot_by_game_id.hasKey id = true) ∧
  (∀ id ∈ s.pending_outgoing_correspondence, s.slot_by_game_id.hasKey id = true)

instance (s : MatchmakingSlots) : Decidable (SlotWF s) := by
  unfold SlotWF; infer_instance

/-! ## Timers

`lib/timer.py` is not among the embedded sources; the spec describes a
timer as a monotonic start instant plus a duration, exposing expiry and
elapsed-time queries. -/

/-- Modelled from the spec: a timer is a start instant plus a duration;
we carry the elapsed time since the last reset instead of the absolute
start instant.  `Timer()` with no arguments (the rate-limit timer) has
duration 0, hence is already expired. -/
structure Timer where
  duration : Nat
  elapsed : Nat
deriving DecidableEq

/-- Modelled from the spec: a timer is expired once its duration has
elapsed since the last reset. -/
def Timer.is_expired (t : Timer) : Bool :=
  t.duration ≤ t.elapsed

/-- Modelled from the spec: time since the last reset. -/
def Timer.time_since_reset (t : Timer) : Nat :=
  t.elapsed

/-- Modelled from the spec: restart the timer at the current instant. -/
def Timer.reset (t : Timer) : Timer :=
  { t with elapsed := 0 }

/-! ## The scheduler (`Matchmaking`, lines 222-627)

The fields below are the `Matchmaking.__init__` state consumed by the
decision flow of the embedded claims; configuration values are inlined as
fields (`allow_matchmaking`, `allow_during_games`, the wait durations).
`max_background_correspondence_games` is `some n` for a finite target and
`none` for `math.inf`. -/

structure Matchmaking where
  allow_matchmaking : Bool
  allow_during_games : Bool
  last_challenge_created_delay : Timer
  last_game_ended_delay : Timer
  rate_limit_timer : Timer
  min_wait_time : Nat
  max_wait_time : Nat
  challenge_id : String
  force_immediate_challenge : Bool
  max_background_correspondence_games : Option Nat
  slots : Option MatchmakingSlots
deriving DecidableEq

namespace Matchmaking

/-- Embeds the comparison `current_correspondence >= self.max_background_correspondence_games`
(line 491); a `math.inf` target is never met. -/
def bg_target_met (current : Nat) (target : Option Nat) : Bool :=
  match target with
  | none => false
  | some t => current ≥ t

/-- Embeds `should_create_challenge(ignore_postgame_timeout, ignore_min_wait)`
(lines 274-290).  Returns the decision together with the updated scheduler
state: when the outstanding challenge has expired it is cancelled through
the API (external), discarded, and its slot released. -/
def should_create_challenge (m : Matchmaking)
    (ignore_postgame_timeout ignore_min_wait : Bool) : Bool × Matchmaking :=
  let matchmaking_enabled := m.allow_matchmaking
  let postgame_ok := ignore_postgame_timeout || m.last_game_ended_delay.is_expired
  let time_has_passed := postgame_ok && m.rate_limit_timer.is_expired
  let challenge_expired := m.last_challenge_created_delay.is_expired && m.challenge_id != ""
  let min_wait_time_passed :=
    ignore_min_wait || decide (m.last_challenge_created_delay.time_since_reset > m.min_wait_time)
  let m1 :=
    if challenge_expired then
      { m with
        challenge_id := ""
        slots := Option.map (fun sl => sl.release m.challenge_id) m.slots }
    else m
  (matchmaking_enabled && (time_has_passed || challenge_expired) && min_wait_time_passed, m1)

/-- Embeds `create_challenge(username, base_time, increment, days, variant, mode)`
(lines 292-322), with the Game Service response supplied as the oracle
`response_id` (empty string for a failed request).  The filter/rate-limit
bookkeeping of the error branches is external to the embedded claims. -/
def create_challenge (m : Matchmaking) (response_id : String)
    (base_time increment num_days : Nat) : String × Matchmaking :=
  if num_days ≠ 0 ∨ base_time ≠ 0 ∨ increment ≠ 0 then
    (response_id, { m with last_challenge_created_delay := m.last_challenge_created_delay.reset })
  else
    ("", m)

/-- Oracle outcome of one `choose_opponent` call: the chosen opponent (or
none) and the chosen time control; variant and mode do not feed back into
the decision flow. -/
structure ChooseResult where
  username : Option String
  base_time : Nat
  increment : Nat
  num_days : Nat
deriving DecidableEq

/-- Oracle inputs of one `challenge` tick: the `choose_opponent` outcomes
and Game Service responses for the background-correspondence and the
real-time paths. -/
structure TickEnv where
  bg_choice : ChooseResult
  bg_response_id : String
  rt_choice : ChooseResult
  rt_response_id : String
deriving DecidableEq

/-- Observable calls made during one `challenge` tick: the argument pairs
`(ignore_postgame_timeout, ignore_min_wait)` of each `should_create_challenge`
call, in order, and the number of `choose_opponent` invocations. -/
structure TickTrace where
  sc_calls : List (Bool × Bool)
  co_calls : Nat
deriving DecidableEq

/-- Embeds `create_matchmaking_challenge(active_games, allowed_bot_lanes,
correspondence_only)` (lines 499-521).  `choose_opponent` is invoked
unconditionally at its head (lines 506-507); the caller records that
invocation in its trace.  Its outcome is the oracle `choice`. -/
def create_matchmaking_challenge (m : Matchmaking) (active_games : Finset String)
    (choice : ChooseResult) (response_id : String) : Bool × Matchmaking :=
  match choice.username with
  | none => (false, m)
  | some _ =>
    let challenge_speed := game_category "standard" choice.base_time choice.increment choice.num_days
    let slots_reject :=
      match m.slots with
      | some sl => !(sl.can_accept_bot_speed challenge_speed active_games)
      | none => false
    if slots_reject then (false, m)
    else
      let result := m.create_challenge response_id choice.base_time choice.increment choice.num_days
      let challenge_id := result.1
      let m1 := { result.2 with challenge_id := challenge_id }
      let m2 :=
        if challenge_id != "" then
          { m1 with slots := Option.map (fun sl => sl.reserve_outgoing_challenge challenge_id challenge_speed) m1.slots }
        else m1
      (challenge_id != "", m2)

/-- Embeds `_challenge_for_background_correspondence(active_games)`
(lines 485-497), returning the created flag, the updated state, and the
trace of observable calls. -/
def challenge_for_background_correspondence (m : Matchmaking) (active_games : Finset String)
    (env : TickEnv) : Bool × Matchmaking × TickTrace :=
  match m.slots with
  | none => (false, m, ⟨[], 0⟩)
  | some sl =>
    if !sl.enabled then (false, m, ⟨[], 0⟩)
    else
      let current_correspondence := sl.correspondence_reservation_count
      if bg_target_met current_correspondence m.max_background_correspondence_games then
        (false, m, ⟨[], 0⟩)
      else
        let ignore_min_wait := m.force_immediate_challenge
        let m1 := { m with force_immediate_challenge := false }
        let sc := m1.should_create_challenge true ignore_min_wait
        if !sc.1 then (false, sc.2, ⟨[(true, ignore_min_wait)], 0⟩)
        else
          let created := sc.2.create_matchmaking_challenge active_games env.bg_choice env.bg_response_id
          (created.1, created.2, ⟨[(true, ignore_min_wait)], 1⟩)

/-- Embeds the top-level per-tick decision `challenge(active_games,
challenge_queue, max_games)` (lines 449-483), returning the updated state
and the trace of observable calls. -/
def challenge (m : Matchmaking) (active_games : Finset String)
    (challenge_queue_nonempty : Bool) (max_games : Nat) (env : TickEnv) :
    Matchmaking × TickTrace :=
  if challenge_queue_nonempty then (m, ⟨[], 0⟩)
  else
    let bg := m.challenge_for_background_correspondence active_games env
    let m1 := bg.2.1
    let tr1 := bg.2.2
    if bg.1 then (m1, tr1)
    else
      let max_games_for_matchmaking := if m.allow_during_games then max_games else min 1 max_games
      let game_count := active_games.card
      if game_count ≥ max_games_for_matchmaking then (m1, tr1)
      else
        let allowed_bot_lanes :=
          match m1.slots with
          | some sl => sl.available_bot_lanes active_games
          | none => ({"short", "long"} : Finset String)
        if allowed_bot_lanes = ∅ then (m1, tr1)
        else
          let slot_mode := match m1.slots with | some sl => sl.enabled | none => false
          let cooldown_while_games_active := if slot_mode then m1.min_wait_time else m1.max_wait_time
          if game_count > 0 ∧ m1.last_challenge_created_delay.time_since_reset < cooldown_while_games_active then
            (m1, tr1)
          else
            let sc := m1.should_create_challenge false false
            let tr2 : TickTrace := ⟨tr1.sc_calls ++ [(false, false)], tr1.co_calls⟩
            if !sc.1 then (sc.2, tr2)
            else
              let created := sc.2.create_matchmaking_challenge active_games env.rt_choice env.rt_response_id
              (created.2, ⟨tr2.sc_calls, tr2.co_calls + 1⟩)

/-- Embeds `correspondence_game_done()` (lines 537-539). -/
def correspondence_game_done (m : Matchmaking) : Matchmaking :=
  { m with force_immediate_challenge := true }

/-- Embeds `game_done()` (lines 532-535): reset the post-game cooldown. -/
def game_done (m : Matchmaking) : Matchmaking :=
  { m with last_game_ended_delay := m.last_game_ended_delay.reset }

end Matchmaking

/-! ## Opponent weighting (`get_weights`, lines 353-371) -/

/-- A candidate bot profile, reduced to what `get_weights` reads: the map
from rating category to the rating in that category (the nested
`perfs[game_type]["rating"]` lookup with default 0 is flattened). -/
structure BotProfile where
  perfs : List (String × Int)
deriving DecidableEq

/-- Embeds the inner helper `rating(bot)` of `get_weights`:
`bot.get("perfs", {}).get(game_type, {}).get("rating", 0)`. -/
def BotProfile.rating (bot : BotProfile) (game_type : String) : Int :=
  (List.lookup game_type bot.perfs).getD 0

/-- Embeds `get_weights(online_bots, rating_preference, min_rating,
max_rating, game_type)`. -/
def get_weights (online_bots : List BotProfile) (rating_preference : String)
    (min_rating max_rating : Int) (game_type : String) : List Int :=
  if rating_preference = "high" then
    let reduce_ratings_by := min (min_rating - (max_rating - min_rating)) (min_rating - 1)
    online_bots.map (fun bot => bot.rating game_type - reduce_ratings_by)
  else if rating_preference = "low" then
    let reduce_ratings_by := max (max_rating - (min_rating - max_rating)) (max_rating + 1)
    online_bots.map (fun bot => reduce_ratings_by - bot.rating game_type)
  else
    List.replicate online_bots.length 1

/-! ## Spec-side formulas for refinement comparison -/

/-- The spec's stated decision formula for `should_create_challenge`,
written from its words: matchmaking enabled AND (post-game cooldown
satisfied-or-ignored AND rate-limit cooldown satisfied) AND (minimum
spacing satisfied-or-ignored OR the just-expired-challenge condition
held).  To be compared with the embedded code. -/
def shouldCreateChallengeSpec (m : Matchmaking)
    (ignore_postgame_timeout ignore_min_wait : Bool) : Bool :=
  m.allow_matchmaking
    && ((ignore_postgame_timeout || m.last_game_ended_delay.is_expired)
        && m.rate_limit_timer.is_expired)
    && (ignore_min_wait
        || decide (m.last_challenge_created_delay.time_since_reset > m.min_wait_time)
        || (m.last_challenge_created_delay.is_expired && m.challenge_id != ""))

/-- The amended decision formula, matching the code: matchmaking enabled
AND ((post-game cooldown satisfied-or-ignored AND rate-limit cooldown
satisfied) OR the just-expired-challenge condition held) AND (minimum
spacing satisfied-or-ignored). -/
def shouldCreateChallengeAmended (m : Matchmaking)
    (ignore_postgame_timeout ignore_min_wait : Bool) : Bool :=
  m.allow_matchmaking
    && (((ignore_postgame_timeout || m.last_game_ended_delay.is_expired)
          && m.rate_limit_timer.is_expired)
        || (m.last_challenge_created_delay.is_expired && m.challenge_id != ""))
    && (ignore_min_wait
        || decide (m.last_challenge_created_delay.time_since_reset > m.min_wait_time))

/-! ## Concrete states used by witnesses and counterexamples -/

/-- Tracker with capacity 3 holding one short-speed and one long-speed
outgoing bot challenge. -/
def slotsC2 : MatchmakingSlots :=
  ((MatchmakingSlots.init 3).reserve_outgoing_challenge "a" "blitz").reserve_outgoing_challenge "b" "classical"

/-- Scheduler state refuting the spec's `should_create_challenge` formula:
the outstanding challenge "abc" has outlived its 25-second expiry window
but the 60-second minimum spacing has not elapsed (30 seconds). -/
def mC1 : Matchmaking :=
  { allow_matchmaking := true
    allow_during_games := true
    last_challenge_created_delay := ⟨25, 30⟩
    last_game_ended_delay := ⟨60, 0⟩
    rate_limit_timer := ⟨0, 0⟩
    min_wait_time := 60
    max_wait_time := 600
    challenge_id := "abc"
    force_immediate_challenge := false
    max_background_correspondence_games := some 1
    slots := none }

/-- Tracker with capacity 3 holding one active correspondence game. -/
def slotsC7 : MatchmakingSlots :=
  (MatchmakingSlots.init 3).reserve_game "c1" true "correspondence"

/-- Scheduler state whose correspondence reservation count (1) meets the
background target (1), with all real-time eligibility gates open. -/
def mC7 : Matchmaking :=
  { allow_matchmaking := true
    allow_during_games := true
    last_challenge_created_delay := ⟨25, 100⟩
    last_game_ended_delay := ⟨0, 0⟩
    rate_limit_timer := ⟨0, 0⟩
    min_wait_time := 60
    max_wait_time := 600
    challenge_id := ""
    force_immediate_challenge := false
    max_background_correspondence_games := some 1
    slots := some slotsC7 }

/-- Oracle for the C7 tick: both paths would find an opponent. -/
def envC7 : Matchmaking.TickEnv :=
  { bg_choice := ⟨some "opp", 0, 0, 1⟩
    bg_response_id := "bgid"
    rt_choice := ⟨some "opp", 60, 0, 0⟩
    rt_response_id := "rtid" }

/-- Scheduler state like `mC7` (correspondence target already met) but with
the one-shot force-immediate flag set. -/
def mC8c : Matchmaking :=
  { mC7 with force_immediate_challenge := true }

/-- Scheduler state with slot accounting enabled and the correspondence
target (1) not yet met, used to exercise the forced-immediate tick. -/
def mC8w : Matchmaking :=
  { allow_matchmaking := true
    allow_during_games := true
    last_challenge_created_delay := ⟨25, 100⟩
    last_game_ended_delay := ⟨0, 0⟩
    rate_limit_timer := ⟨0, 0⟩
    min_wait_time := 60
    max_wait_time := 600
    challenge_id := ""
    force_immediate_challenge := false
    max_background_correspondence_games := some 1
    slots := some (MatchmakingSlots.init 3) }

/-- Tracker with capacity 3 in which the identifier "a" already holds a
reservation. -/
def slotsC9 : MatchmakingSlots :=
  (MatchmakingSlots.init 3).reserve_game "a" false "blitz"

/-! ## Helper lemmas on the dict model -/

theorem SlotMap.hasKey_iff (m : SlotMap) (k : String) :
    m.hasKey k = true ↔ ∃ p ∈ m, p.1 = k := by
  unfold SlotMap.hasKey
  simp [List.any_eq_true]

theorem SlotMap.hasKey_insert_self (m : SlotMap) (k v : String) :
    (m.insert k v).hasKey k = true := by
  unfold SlotMap.insert SlotMap.hasKey
  simp

theorem SlotMap.hasKey_insert_of (m : SlotMap) (k v x : String)
    (h : m.hasKey x = true) : (m.insert k v).hasKey x = true := by
  by_cases hxk : x = k
  · subst hxk
    exact SlotMap.hasKey_insert_self m x v
  · rw [SlotMap.hasKey_iff] at h ⊢
    obtain ⟨p, hp, hpx⟩ := h
    refine ⟨p, ?_, hpx⟩
    simp only [SlotMap.insert, List.mem_cons, List.mem_filter]
    exact Or.inr ⟨hp, by simp [hpx, hxk]⟩

theorem SlotMap.hasKey_erase_of (m : SlotMap) (k x : String)
    (hx : x ≠ k) (h : m.hasKey x = true) : (m.erase k).hasKey x = true := by
  rw [SlotMap.hasKey_iff] at h ⊢
  obtain ⟨p, hp, hpx⟩ := h
  refine ⟨p, ?_, hpx⟩
  simp only [SlotMap.erase, List.mem_filter]
  exact ⟨hp, by simp [hpx, hx]⟩

theorem SlotMap.erase_of_hasKey_false (m : SlotMap) (k : String)
    (h : m.hasKey k = false) : m.erase k = m := by
  unfold SlotMap.erase
  refine List.filter_eq_self.mpr ?_
  intro p hp
  have hne : p.1 ≠ k := by
    intro heq
    have : m.hasKey k = true := (SlotMap.hasKey_iff m k).mpr ⟨p, hp, heq⟩
    rw [this] at h
    simp at h
  simpa using hne

theorem SlotMap.erase_idem (m : SlotMap) (k : String) :
    (m.erase k).erase k = m.erase k := by
  unfold SlotMap.erase
  rw [List.filter_filter]
  simp

theorem SlotMap.erase_insert (m : SlotMap) (k v : String)
    (h : m.hasKey k = false) : (m.insert k v).erase k = m := by
  unfold SlotMap.insert SlotMap.erase
  rw [List.filter_cons_of_neg (by simp)]
  rw [List.filter_filter]
  simp only [Bool.and_self]
  refine List.filter_eq_self.mpr ?_
  intro p hp
  have hne : p.1 ≠ k := by
    intro heq
    have : m.hasKey k = true := (SlotMap.hasKey_iff m k).mpr ⟨p, hp, heq⟩
    rw [this] at h
    simp at h
  simpa using hne

/-! ## Preservation lemmas for the tracker -/

theorem slotApply_max_games (s : MatchmakingSlots) (op : SlotOp) :
    (slotApply s op).max_games = s.max_games := by
  cases op <;>
    simp only [slotApply, MatchmakingSlots.reserve_game,
      MatchmakingSlots.reserve_outgoing_challenge, MatchmakingSlots.confirm_game_start,
      MatchmakingSlots.release] <;>
    split <;> (try split) <;> rfl

theorem slotApply_enabled (s : MatchmakingSlots) (op : SlotOp) :
    (slotApply s op).enabled = s.enabled := by
  cases op <;>
    simp only [slotApply, MatchmakingSlots.reserve_game,
      MatchmakingSlots.reserve_outgoing_challenge, MatchmakingSlots.confirm_game_start,
      MatchmakingSlots.release] <;>
    split <;> (try split) <;> rfl

theorem slotRun_max_games (max_games : Nat) (ops : List SlotOp) :
    (slotRun max_games ops).max_games = max_games := by
  suffices h : ∀ (s : MatchmakingSlots) (ops : List SlotOp),
      (List.foldl slotApply s ops).max_games = s.max_games by
    exact h _ ops
  intro s ops
  induction ops generalizing s with
  | nil => rfl
  | cons op rest ih => rw [List.foldl_cons, ih, slotApply_max_games]

theorem slotRun_enabled (max_games : Nat) (ops : List SlotOp) :
    (slotRun max_games ops).enabled = (max_games == 3) := by
  suffices h : ∀ (s : MatchmakingSlots) (ops : List SlotOp),
      (List.foldl slotApply s ops).enabled = s.enabled by
    exact h _ ops
  intro s ops
  induction ops generalizing s with
  | nil => rfl
  | cons op rest ih => rw [List.foldl_cons, ih, slotApply_enabled]

theorem slotWF_init (max_games : Nat) : SlotWF (MatchmakingSlots.init max_games) := by
  constructor <;> intro id hid <;> simp [MatchmakingSlots.init] at hid

theorem slotWF_apply (s : MatchmakingSlots) (op : SlotOp) (h : SlotWF s) :
    SlotWF (slotApply s op) := by
  obtain ⟨h1, h2⟩ := h
  cases op with
  | reserveGame id is_bot_game speed =>
    simp only [slotApply, MatchmakingSlots.reserve_game]
    split
    · exact ⟨h1, h2⟩
    · constructor
      · intro x hx
        have hx' := Finset.mem_of_mem_erase hx
        exact SlotMap.hasKey_insert_of _ _ _ _ (h1 x hx')
      · intro x hx
        have hx' := Finset.mem_of_mem_erase hx
        exact SlotMap.hasKey_insert_of _ _ _ _ (h2 x hx')
  | reserveOutgoingChallenge id speed =>
    simp only [slotApply, MatchmakingSlots.reserve_outgoing_challenge]
    split
    · exact ⟨h1, h2⟩
    · split
      · constructor
        · intro x hx
          exact SlotMap.hasKey_insert_of _ _ _ _ (h1 x hx)
        · intro x hx
          rcases Finset.mem_insert.mp hx with hxe | hxm
          · subst hxe
            exact SlotMap.hasKey_insert_self _ _ _
          · exact SlotMap.hasKey_insert_of _ _ _ _ (h2 x hxm)
      · constructor
        · intro x hx
          rcases Finset.mem_insert.mp hx with hxe | hxm
          · subst hxe
            exact SlotMap.hasKey_insert_self _ _ _
          · exact SlotMap.hasKey_insert_of _ _ _ _ (h1 x hxm)
        · intro x hx
          exact SlotMap.hasKey_insert_of _ _ _ _ (h2 x hx)
  | confirmGameStart id =>
    simp only [slotApply, MatchmakingSlots.confirm_game_start]
    split
    · exact ⟨h1, h2⟩
    · constructor
      · intro x hx
        exact h1 x (Finset.mem_of_mem_erase hx)
      · intro x hx
        exact h2 x (Finset.mem_of_mem_erase hx)
  | releaseOp id =>
    simp only [slotApply, MatchmakingSlots.release]
    split
    · exact ⟨h1, h2⟩
    · constructor
      · intro x hx
        obtain ⟨hxne, hxm⟩ := Finset.mem_erase.mp hx
        exact SlotMap.hasKey_erase_of _ _ _ hxne (h1 x hxm)
      · intro x hx
        obtain ⟨hxne, hxm⟩ := Finset.mem_erase.mp hx
        exact SlotMap.hasKey_erase_of _ _ _ hxne (h2 x hxm)

theorem slotWF_run (max_games : Nat) (ops : List SlotOp) : SlotWF (slotRun max_games ops) := by
  suffices h : ∀ (s : MatchmakingSlots) (ops : List SlotOp),
      SlotWF s → SlotWF (List.foldl slotApply s ops) by
    exact h _ ops (slotWF_init max_games)
  intro s ops
  induction ops generalizing s with
  | nil => exact id
  | cons op rest ih => exact fun hs => ih _ (slotWF_apply s op hs)

/-! ## Claim C4: `game_category` boundaries and precedence -/

/-- C4: for the standard variant with `days = 0`, the duration
`base_time + 40 * increment` classifies with lower-exclusive boundaries:
exactly 179/479/1499 give blitz/rapid/classical and 178/478/1498 give
bullet/blitz/rapid; for the standard variant any positive day count gives
correspondence regardless of clock; any non-standard variant is returned
verbatim regardless of time controls and days, e.g.
`game_category "chess960" 0 0 14 = "chess960"`. -/
theorem C4_game_category_boundaries :
    (∀ variant base_time increment num_days, variant ≠ "standard" →
      game_category variant base_time increment num_days = variant) ∧
    (∀ base_time increment num_days, 0 < num_days →
      game_category "standard" base_time increment num_days = "correspondence") ∧
    (∀ base_time increment, base_time + 40 * increment = 179 →
      game_category "standard" base_time increment 0 = "blitz") ∧
    (∀ base_time increment, base_time + 40 * increment = 479 →
      game_category "standard" base_time increment 0 = "rapid") ∧
    (∀ base_time increment, base_time + 40 * increment = 1499 →
      game_category "standard" base_time increment 0 = "classical") ∧
    (∀ base_time increment, base_time + 40 * increment = 178 →
      game_category "standard" base_time increment 0 = "bullet") ∧
    (∀ base_time increment, base_time + 40 * increment = 478 →
      game_category "standard" base_time increment 0 = "blitz") ∧
    (∀ base_time increment, base_time + 40 * increment = 1498 →
      game_category "standard" base_time increment 0 = "rapid") ∧
    game_category "chess960" 0 0 14 = "chess960" := by
  refine ⟨?_, ?_, ?_, ?_, ?_, ?_, ?_, ?_, by decide⟩
  · intro variant base_time increment num_days h
    simp [game_category, h]
  · intro base_time increment num_days h
    have h0 : num_days ≠ 0 := Nat.pos_iff_ne_zero.mp h
    simp [game_category, h0]
  · intro base_time increment h
    have hd : base_time + increment * 40 = 179 := by omega
    simp [game_category, hd]
  · intro base_time increment h
    have hd : base_time + increment * 40 = 479 := by omega
    simp [game_category, hd]
  · intro base_time increment h
    have hd : base_time + increment * 40 = 1499 := by omega
    simp [game_category, hd]
  · intro base_time increment h
    have hd : base_time + increment * 40 = 178 := by omega
    simp [game_category, hd]
  · intro base_time increment h
    have hd : base_time + increment * 40 = 478 := by omega
    simp [game_category, hd]
  · intro base_time increment h
    have hd : base_time + increment * 40 = 1498 := by omega
    simp [game_category, hd]

/-- Witness for C4 at concrete inputs. -/
theorem C4_witness :
    game_category "atomic" 1 2 3 = "atomic" ∧
    game_category "standard" 10 20 5 = "correspondence" ∧
    game_category "standard" 179 0 0 = "blitz" ∧
    game_category "standard" 39 11 0 = "rapid" ∧
    game_category "standard" 1499 0 0 = "classical" ∧
    game_category "standard" 178 0 0 = "bullet" ∧
    game_category "standard" 478 0 0 = "blitz" ∧
    game_category "standard" 1498 0 0 = "rapid" := by
  refine ⟨C4_game_category_boundaries.1 _ _ _ _ (by decide),
    C4_game_category_boundaries.2.1 _ _ _ (by decide),
    C4_game_category_boundaries.2.2.1 _ _ (by decide),
    C4_game_category_boundaries.2.2.2.1 _ _ (by decide),
    C4_game_category_boundaries.2.2.2.2.1 _ _ (by decide),
    C4_game_category_boundaries.2.2.2.2.2.1 _ _ (by decide),
    C4_game_category_boundaries.2.2.2.2.2.2.1 _ _ (by decide),
    C4_game_category_boundaries.2.2.2.2.2.2.2.1 _ _ (by decide)⟩

/-! ## Claim C2: both bot lanes occupied at capacity 3 -/

/-- C2: with capacity 3, after reserving one short-speed and one long-speed
outgoing bot challenge, no bot lane is available for matchmaking, every
non-correspondence bot speed is rejected, and a correspondence bot
challenge is still accepted. -/
theorem C2_both_lanes_taken :
    slotsC2.available_bot_lanes ∅ = ∅ ∧
    (∀ speed, speed ≠ "correspondence" → slotsC2.can_accept_bot_speed speed ∅ = false) ∧
    slotsC2.can_accept_bot_speed "correspondence" ∅ = true := by
  refine ⟨by decide, ?_, by decide⟩
  intro speed h
  have hc : is_correspondence_speed speed = false := by
    simp [is_correspondence_speed, CORRESPONDENCE_SPEED, h]
  simp only [MatchmakingSlots.can_accept_bot_speed, hc, Bool.false_eq_true, if_false]
  rw [if_neg (by decide), if_neg (by decide), if_pos (by decide)]

/-- Witness for C2 at the short speed "blitz". -/
theorem C2_witness :
    "blitz" ≠ "correspondence" ∧ slotsC2.can_accept_bot_speed "blitz" ∅ = false :=
  ⟨by decide, C2_both_lanes_taken.2.1 "blitz" (by decide)⟩

/-! ## Claim C6: `used_slots` accounting -/

/-- C6: `used_slots` equals the number of active game ids plus the number
of pending outgoing real-time challenge ids not among the active games —
equivalently the cardinality of their union, so an id in both is counted
exactly once; identifiers in `pending_outgoing_correspondence` never
contribute; with accounting disabled it is just the active-game count. -/
theorem C6_used_slots_accounting (s : MatchmakingSlots) (active_games : Finset String) :
    (s.enabled = true →
      s.used_slots active_games
        = active_games.card + (s.pending_outgoing_challenges \ active_games).card ∧
      s.used_slots active_games = (active_games ∪ s.pending_outgoing_challenges).card) ∧
    (s.enabled = false → s.used_slots active_games = active_games.card) ∧
    (∀ other : Finset String,
      MatchmakingSlots.used_slots { s with pending_outgoing_correspondence := other } active_games
        = s.used_slots active_games) := by
  refine ⟨?_, ?_, fun other => rfl⟩
  · intro he
    have hfilter :
        s.pending_outgoing_challenges.filter (fun challenge_id => challenge_id ∉ active_games)
          = s.pending_outgoing_challenges \ active_games :=
      (Finset.sdiff_eq_filter s.pending_outgoing_challenges active_games).symm
    have hcard :
        (s.pending_outgoing_challenges \ active_games).card + active_games.card
          = (s.pending_outgoing_challenges ∪ active_games).card :=
      Finset.card_sdiff_add_card s.pending_outgoing_challenges active_games
    constructor
    · simp [MatchmakingSlots.used_slots, he, hfilter]
    · simp only [MatchmakingSlots.used_slots, he, Bool.not_true, Bool.false_eq_true,
        if_false, hfilter]
      rw [Finset.union_comm]
      omega
  · intro he
    simp [MatchmakingSlots.used_slots, he]

/-- Witness for C6 at a slot-mode tracker with one pending challenge id
that is also active. -/
theorem C6_witness :
    slotsC2.used_slots {"a", "x"} = ({"a", "x"} ∪ slotsC2.pending_outgoing_challenges).card ∧
    slotsC2.used_slots {"a", "x"} = 3 ∧
    (MatchmakingSlots.init 2).used_slots {"a", "x"} = 2 :=
  ⟨((C6_used_slots_accounting slotsC2 {"a", "x"}).1 (by decide)).2, by decide,
    (C6_used_slots_accounting (MatchmakingSlots.init 2) {"a", "x"}).2.1 (by decide)⟩

/-! ## Claim C9: `release` algebra (amended: round trip needs a fresh id) -/

/-- C9 (amended): `release` is idempotent on every tracker state; on a
well-formed state, releasing an id with no reservation is a no-op; and
reserving an id that is not already tracked (by `reserve_game` or
`reserve_outgoing_challenge`) and then releasing it restores the
reservation mapping and both pending sets exactly. -/
theorem C9_release_algebra :
    (∀ (s : MatchmakingSlots) (id : String), (s.release id).release id = s.release id) ∧
    (∀ (s : MatchmakingSlots) (id : String), SlotWF s →
      s.slot_by_game_id.hasKey id = false → s.release id = s) ∧
    (∀ (s : MatchmakingSlots) (id : String) (is_bot_game : Bool) (speed : String), SlotWF s →
      s.slot_by_game_id.hasKey id = false →
      (s.reserve_game id is_bot_game speed).release id = s) ∧
    (∀ (s : MatchmakingSlots) (id : String) (speed : String), SlotWF s →
      s.slot_by_game_id.hasKey id = false →
      (s.reserve_outgoing_challenge id speed).release id = s) := by
  have not_mem_p1 : ∀ (s : MatchmakingSlots) (id : String), SlotWF s →
      s.slot_by_game_id.hasKey id = false → id ∉ s.pending_outgoing_challenges := by
    intro s id hwf hk hmem
    rw [hwf.1 id hmem] at hk
    simp at hk
  have not_mem_p2 : ∀ (s : MatchmakingSlots) (id : String), SlotWF s →
      s.slot_by_game_id.hasKey id = false → id ∉ s.pending_outgoing_correspondence := by
    intro s id hwf hk hmem
    rw [hwf.2 id hmem] at hk
    simp at hk
  refine ⟨?_, ?_, ?_, ?_⟩
  · intro s id
    simp only [MatchmakingSlots.release]
    split
    · rfl
    · simp [SlotMap.erase_idem, Finset.erase_idem]
  · intro s id hwf hk
    simp only [MatchmakingSlots.release]
    split
    · rfl
    · rw [Finset.erase_eq_of_not_mem (not_mem_p1 s id hwf hk),
        Finset.erase_eq_of_not_mem (not_mem_p2 s id hwf hk),
        SlotMap.erase_of_hasKey_false _ _ hk]
  · intro s id is_bot_game speed hwf hk
    simp only [MatchmakingSlots.reserve_game, MatchmakingSlots.release]
    split
    · rfl
    · simp only [Finset.erase_idem]
      rw [Finset.erase_eq_of_not_mem (not_mem_p1 s id hwf hk),
        Finset.erase_eq_of_not_mem (not_mem_p2 s id hwf hk),
        SlotMap.erase_insert _ _ _ hk]
  · intro s id speed hwf hk
    simp only [MatchmakingSlots.reserve_outgoing_challenge, MatchmakingSlots.release]
    split
    · rfl
    · split
      · simp only
        rw [Finset.erase_eq_of_not_mem (not_mem_p1 s id hwf hk),
          Finset.erase_insert (not_mem_p2 s id hwf hk),
          SlotMap.erase_insert _ _ _ hk]
      · simp only
        rw [Finset.erase_insert (not_mem_p1 s id hwf hk),
          Finset.erase_eq_of_not_mem (not_mem_p2 s id hwf hk),
          SlotMap.erase_insert _ _ _ hk]

/-- Counterexample to C9 as stated: when the released id already holds a
reservation, reserve-then-release does not restore the prior state — the
pre-existing reservation of "a" is lost. -/
theorem C9_counterexample :
    ((slotsC9.reserve_game "a" false "blitz").release "a") ≠ slotsC9 := by
  decide

/-- Witness for C9 on the empty capacity-3 tracker and a fresh id. -/
theorem C9_witness :
    (MatchmakingSlots.init 3).release "x" = MatchmakingSlots.init 3 ∧
    ((MatchmakingSlots.init 3).reserve_outgoing_challenge "x" "blitz").release "x"
      = MatchmakingSlots.init 3 ∧
    ((MatchmakingSlots.init 3).reserve_game "x" true "rapid").release "x"
      = MatchmakingSlots.init 3 :=
  ⟨C9_release_algebra.2.1 _ "x" (by decide) (by decide),
    C9_release_algebra.2.2.2 _ "x" "blitz" (by decide) (by decide),
    C9_release_algebra.2.2.1 _ "x" true "rapid" (by decide) (by decide)⟩

/-! ## Claim C3: pending ids always hold a reservation -/

/-- C3: in every tracker state reachable from the empty state by public
operations, every identifier in `pending_outgoing_challenges` or
`pending_outgoing_correspondence` is also a key of `slot_by_game_id`. -/
theorem C3_pending_subset_reservations (max_games : Nat) (ops : List SlotOp) (id : String)
    (h : id ∈ (slotRun max_games ops).pending_outgoing_challenges ∨
      id ∈ (slotRun max_games ops).pending_outgoing_correspondence) :
    (slotRun max_games ops).slot_by_game_id.hasKey id = true := by
  rcases h with h | h
  · exact (slotWF_run max_games ops).1 id h
  · exact (slotWF_run max_games ops).2 id h

/-- Witness for C3: one outgoing real-time challenge makes its id pending
and reserved. -/
theorem C3_witness :
    ("a" ∈ (slotRun 3 [SlotOp.reserveOutgoingChallenge "a" "blitz"]).pending_outgoing_challenges ∨
      "a" ∈ (slotRun 3 [SlotOp.reserveOutgoingChallenge "a" "blitz"]).pending_outgoing_correspondence) ∧
    (slotRun 3 [SlotOp.reserveOutgoingChallenge "a" "blitz"]).slot_by_game_id.hasKey "a" = true :=
  ⟨Or.inl (by decide), C3_pending_subset_reservations 3 _ "a" (Or.inl (by decide))⟩

/-! ## Claim C10: opponent weights are always positive -/

/-- C10: with rating preference "high" or "low", if the window is
non-degenerate and every candidate bot rating in the chosen category lies
inside `[min_rating, max_rating]`, then every weight produced by
`get_weights` is at least 1, so the weighted draw never sees a zero or
negative weight. -/
theorem C10_weights_positive (online_bots : List BotProfile) (rating_preference : String)
    (min_rating max_rating : Int) (game_type : String)
    (hpref : rating_preference = "high" ∨ rating_preference = "low")
    (hwin : min_rating ≤ max_rating)
    (hbots : ∀ bot ∈ online_bots,
      min_rating ≤ bot.rating game_type ∧ bot.rating game_type ≤ max_rating) :
    ∀ w ∈ get_weights online_bots rating_preference min_rating max_rating game_type, 1 ≤ w := by
  intro w hw
  rcases hpref with hp | hp <;> subst hp
  · have hw2 : w ∈ List.map
        (fun bot => bot.rating game_type - min (min_rating - (max_rating - min_rating)) (min_rating - 1))
        online_bots := by
      simpa [get_weights] using hw
    rw [List.mem_map] at hw2
    obtain ⟨bot, hbot, rfl⟩ := hw2
    have hr := (hbots bot hbot).1
    have hmin : min (min_rating - (max_rating - min_rating)) (min_rating - 1) ≤ min_rating - 1 :=
      min_le_right _ _
    omega
  · have hw2 : w ∈ List.map
        (fun bot => max (max_rating - (min_rating - max_rating)) (max_rating + 1) - bot.rating game_type)
        online_bots := by
      simpa [get_weights] using hw
    rw [List.mem_map] at hw2
    obtain ⟨bot, hbot, rfl⟩ := hw2
    have hr := (hbots bot hbot).2
    have hmax : max_rating + 1 ≤ max (max_rating - (min_rating - max_rating)) (max_rating + 1) :=
      le_max_right _ _
    omega

/-- Witness for C10: a single candidate rated 1500 in a [1400, 1600]
window with preference "high" receives weight 300. -/
theorem C10_witness :
    (300 : Int) ∈ get_weights [⟨[("blitz", 1500)]⟩] "high" 1400 1600 "blitz" ∧ (1 : Int) ≤ 300 :=
  ⟨by decide,
    C10_weights_positive [⟨[("blitz", 1500)]⟩] "high" 1400 1600 "blitz" (Or.inl rfl)
      (by decide) (by decide) 300 (by decide)⟩

/-! ## Claim C5: any capacity other than 3 collapses to one pool -/

theorem disabled_used_slots (s : MatchmakingSlots) (h : s.enabled = false)
    (active_games : Finset String) : s.used_slots active_games = active_games.card := by
  simp [MatchmakingSlots.used_slots, h]

theorem disabled_can_accept_human (s : MatchmakingSlots) (h : s.enabled = false)
    (active_games : Finset String) :
    s.can_accept_human active_games = decide (active_games.card < s.max_games) := by
  unfold MatchmakingSlots.can_accept_human
  rw [disabled_used_slots s h]

theorem disabled_can_accept_correspondence (s : MatchmakingSlots) (h : s.enabled = false)
    (active_games : Finset String) :
    s.can_accept_correspondence active_games = decide (active_games.card < s.max_games) := by
  unfold MatchmakingSlots.can_accept_correspondence
  rw [disabled_used_slots s h]
  simp [h]

theorem disabled_can_accept_bot_speed (s : MatchmakingSlots) (h : s.enabled = false)
    (speed : String) (active_games : Finset String) :
    s.can_accept_bot_speed speed active_games = decide (active_games.card < s.max_games) := by
  unfold MatchmakingSlots.can_accept_bot_speed
  rw [disabled_can_accept_correspondence s h]
  simp only [disabled_used_slots s h, h, Bool.not_false, if_true]
  by_cases hcorr : is_correspondence_speed speed
  · simp [hcorr]
  · by_cases hge : active_games.card ≥ s.max_games
    · simp [hcorr, hge, Nat.not_lt.mpr hge]
    · simp [hcorr, hge, Nat.lt_of_not_le hge]

theorem disabled_can_accept_challenge (s : MatchmakingSlots) (h : s.enabled = false)
    (challenge : Challenge) (active_games : Finset String) :
    s.can_accept_challenge challenge active_games = decide (active_games.card < s.max_games) := by
  unfold MatchmakingSlots.can_accept_challenge
  rw [disabled_can_accept_correspondence s h, disabled_can_accept_bot_speed s h,
    disabled_can_accept_human s h]
  split <;> (try split) <;> rfl

theorem disabled_available_bot_lanes (s : MatchmakingSlots) (h : s.enabled = false)
    (active_games : Finset String) :
    s.available_bot_lanes active_games
      = (if active_games.card < s.max_games then ({"short", "long"} : Finset String) else ∅) := by
  unfold MatchmakingSlots.available_bot_lanes
  simp only [disabled_used_slots s h, h, Bool.not_false, if_true]
  by_cases hge : active_games.card ≥ s.max_games
  · simp [hge, Nat.not_lt.mpr hge]
  · simp [hge, Nat.lt_of_not_le hge]

theorem disabled_can_start_correspondence_move (s : MatchmakingSlots) (h : s.enabled = false)
    (active_games : Finset String) :
    s.can_start_correspondence_move active_games = decide (active_games.card < s.max_games) := by
  unfold MatchmakingSlots.can_start_correspondence_move
  simp only [disabled_used_slots s h, h, Bool.not_false, if_true]
  by_cases hge : active_games.card ≥ s.max_games
  · simp [hge, Nat.not_lt.mpr hge]
  · simp [hge, Nat.lt_of_not_le hge]

/-- C5: for every capacity other than 3 and every reachable tracker state,
the accounting flag is false and every capacity/eligibility query is gated
only by the active-game count against the capacity, with no per-lane
restriction (a nonempty `available_bot_lanes` is the full pair). -/
theorem C5_no_accounting_off_capacity_three (max_games : Nat) (hcap : max_games ≠ 3)
    (ops : List SlotOp) :
    (slotRun max_games ops).enabled = false ∧
    ∀ active_games : Finset String,
      (slotRun max_games ops).used_slots active_games = active_games.card ∧
      (slotRun max_games ops).can_accept_human active_games
        = decide (active_games.card < max_games) ∧
      (slotRun max_games ops).can_accept_correspondence active_games
        = decide (active_games.card < max_games) ∧
      (∀ speed, (slotRun max_games ops).can_accept_bot_speed speed active_games
        = decide (active_games.card < max_games)) ∧
      (∀ challenge : Challenge, (slotRun max_games ops).can_accept_challenge challenge active_games
        = decide (active_games.card < max_games)) ∧
      (slotRun max_games ops).available_bot_lanes active_games
        = (if active_games.card < max_games then ({"short", "long"} : Finset String) else ∅) ∧
      (slotRun max_games ops).can_start_correspondence_move active_games
        = decide (active_games.card < max_games) := by
  have he : (slotRun max_games ops).enabled = false := by
    rw [slotRun_enabled]
    simp [hcap]
  have hm : (slotRun max_games ops).max_games = max_games := slotRun_max_games max_games ops
  refine ⟨he, fun active_games => ?_⟩
  refine ⟨disabled_used_slots _ he active_games, ?_, ?_, ?_, ?_, ?_, ?_⟩
  · rw [disabled_can_accept_human _ he active_games, hm]
  · rw [disabled_can_accept_correspondence _ he active_games, hm]
  · intro speed
    rw [disabled_can_accept_bot_speed _ he speed active_games, hm]
  · intro challenge
    rw [disabled_can_accept_challenge _ he challenge active_games, hm]
  · rw [disabled_available_bot_lanes _ he active_games, hm]
  · rw [disabled_can_start_correspondence_move _ he active_games, hm]

/-- Witness for C5 at capacity 2 after one (ignored) reservation. -/
theorem C5_witness :
    (slotRun 2 [SlotOp.reserveGame "g" true "blitz"]).enabled = false ∧
    (slotRun 2 [SlotOp.reserveGame "g" true "blitz"]).used_slots {"x"} = 1 ∧
    (slotRun 2 [SlotOp.reserveGame "g" true "blitz"]).can_accept_bot_speed "blitz" {"x"} = true ∧
    (slotRun 2 [SlotOp.reserveGame "g" true "blitz"]).available_bot_lanes {"x"}
      = ({"short", "long"} : Finset String) := by
  have h := C5_no_accounting_off_capacity_three 2 (by decide) [SlotOp.reserveGame "g" true "blitz"]
  refine ⟨h.1, ?_, ?_, ?_⟩
  · rw [(h.2 {"x"}).1]
    decide
  · rw [(h.2 {"x"}).2.2.2.1 "blitz"]
    decide
  · rw [(h.2 {"x"}).2.2.2.2.2.1]
    decide

/-! ## Claim C1: the `should_create_challenge` decision formula -/

/-- Counterexample to C1 as stated: with the outstanding challenge "abc"
expired (30s ≥ 25s) but the 60-second minimum spacing not elapsed and
`ignore_min_wait = false`, the spec formula says true while the code
returns false (the code conjoins the minimum-wait condition, it does not
disjoin the expiry condition into it). -/
theorem C1_counterexample :
    shouldCreateChallengeSpec mC1 true false = true ∧
    (mC1.should_create_challenge true false).1 = false := by
  decide

/-- C1 (amended): `should_create_challenge` returns true iff matchmaking
is globally enabled AND ((post-game cooldown satisfied-or-ignored AND
rate-limit timer expired) OR the just-expired-outstanding-challenge
condition held at entry) AND (the minimum spacing since the last
challenge has elapsed or is ignored). -/
theorem C1_should_create_challenge_formula (m : Matchmaking)
    (ignore_postgame_timeout ignore_min_wait : Bool) :
    (m.should_create_challenge ignore_postgame_timeout ignore_min_wait).1
      = shouldCreateChallengeAmended m ignore_postgame_timeout ignore_min_wait := rfl

/-! ## Claim C7: background replenishment when the target is met -/

/-- C7 (amended): whenever the tracked correspondence reservation count
already meets or exceeds the configured background target, the
background-replenishment step returns immediately: it performs no
opponent selection, no eligibility check, creates nothing and leaves the
scheduler state unchanged.  (The top-level decision may still invoke
opponent selection through its real-time path.) -/
theorem C7_background_step_stops_at_target (m : Matchmaking) (sl : MatchmakingSlots)
    (active_games : Finset String) (env : Matchmaking.TickEnv)
    (hs : m.slots = some sl)
    (ht : Matchmaking.bg_target_met sl.correspondence_reservation_count
      m.max_background_correspondence_games = true) :
    m.challenge_for_background_correspondence active_games env = (false, m, ⟨[], 0⟩) := by
  unfold Matchmaking.challenge_for_background_correspondence
  rw [hs]
  by_cases hen : sl.enabled
  · simp [hen, ht]
  · simp [hen]

/-- Counterexample to C7 as stated: in `mC7` the correspondence count (1)
meets the target (1), yet the tick still invokes `choose_opponent` — via
the real-time path. -/
theorem C7_counterexample :
    Matchmaking.bg_target_met slotsC7.correspondence_reservation_count
      mC7.max_background_correspondence_games = true ∧
    (mC7.challenge ∅ false 3 envC7).2.co_calls ≠ 0 := by
  decide

/-- Witness for C7 at the concrete saturated state. -/
theorem C7_witness :
    mC7.challenge_for_background_correspondence ∅ envC7 = (false, mC7, ⟨[], 0⟩) :=
  C7_background_step_stops_at_target mC7 slotsC7 ∅ envC7 rfl (by decide)

/-! ## Claim C8: the one-shot force-immediate flag -/

theorem should_create_preserves_force (m : Matchmaking) (a b : Bool) :
    ((m.should_create_challenge a b).2).force_immediate_challenge
      = m.force_immediate_challenge := by
  simp only [Matchmaking.should_create_challenge]
  split <;> rfl

theorem create_challenge_preserves_force (m : Matchmaking) (rid : String) (bt inc nd : Nat) :
    ((m.create_challenge rid bt inc nd).2).force_immediate_challenge
      = m.force_immediate_challenge := by
  simp only [Matchmaking.create_challenge]
  split <;> rfl

theorem create_matchmaking_preserves_force (m : Matchmaking) (active_games : Finset String)
    (choice : Matchmaking.ChooseResult) (rid : String) :
    ((m.create_matchmaking_challenge active_games choice rid).2).force_immediate_challenge
      = m.force_immediate_challenge := by
  obtain ⟨u, cb, ci, cd⟩ := choice
  cases u with
  | none => rfl
  | some name =>
    simp only [Matchmaking.create_matchmaking_challenge]
    split
    · rfl
    · split
      · simp [create_challenge_preserves_force]
      · simp [create_challenge_preserves_force]

theorem challenge_trace_force (m : Matchmaking) (active_games : Finset String) (mg : Nat)
    (env : Matchmaking.TickEnv) :
    ((m.challenge active_games false mg env).2.sc_calls
        = (m.challenge_for_background_correspondence active_games env).2.2.sc_calls ∨
      (m.challenge active_games false mg env).2.sc_calls
        = (m.challenge_for_background_correspondence active_games env).2.2.sc_calls
            ++ [(false, false)]) ∧
    (m.challenge active_games false mg env).1.force_immediate_challenge
      = (m.challenge_for_background_correspondence active_games env).2.1.force_immediate_challenge := by
  simp only [Matchmaking.challenge, Bool.false_eq_true, if_false]
  split_ifs
  all_goals try exact ⟨Or.inl rfl, rfl⟩
  all_goals
    refine ⟨Or.inr rfl, ?_⟩
    try rw [create_matchmaking_preserves_force]
    exact should_create_preserves_force
      ((m.challenge_for_background_correspondence active_games env).2.1) false false

theorem background_step_consumes_flag (m : Matchmaking) (sl : MatchmakingSlots)
    (active_games : Finset String) (env : Matchmaking.TickEnv)
    (hs : m.slots = some sl) (he : sl.enabled = true)
    (ht : Matchmaking.bg_target_met sl.correspondence_reservation_count
      m.max_background_correspondence_games = false)
    (hf : m.force_immediate_challenge = true) :
    (m.challenge_for_background_correspondence active_games env).2.2.sc_calls
      = [(true, true)] ∧
    (m.challenge_for_background_correspondence active_games env).2.1.force_immediate_challenge
      = false := by
  unfold Matchmaking.challenge_for_background_correspondence
  rw [hs]
  simp only [he, Bool.not_true, Bool.false_eq_true, if_false, ht, hf]
  split
  · exact ⟨rfl, by rw [should_create_preserves_force]⟩
  · constructor
    · rfl
    · rw [create_matchmaking_preserves_force, should_create_preserves_force]

/-- C8 (amended): after `correspondence_game_done` sets the one-shot
force-immediate flag, the next top-level decision tick — provided the
incoming queue is empty, slot accounting is enabled, and the
correspondence reservation count is still below the background target —
invokes `should_create_challenge` with `ignore_min_wait = true` as its
first eligibility check, and leaves the flag false afterwards regardless
of whether a challenge was created, so the flag cannot survive into a
further tick. -/
theorem C8_force_immediate_one_shot (m : Matchmaking) (sl : MatchmakingSlots)
    (active_games : Finset String) (mg : Nat) (env : Matchmaking.TickEnv)
    (hs : m.slots = some sl) (he : sl.enabled = true)
    (ht : Matchmaking.bg_target_met sl.correspondence_reservation_count
      m.max_background_correspondence_games = false) :
    ((m.correspondence_game_done.challenge active_games false mg env).2.sc_calls.head?
        = some (true, true)) ∧
    (m.correspondence_game_done.challenge active_games false mg env).1.force_immediate_challenge
      = false := by
  have hbg := background_step_consumes_flag m.correspondence_game_done sl active_games env
    hs he ht rfl
  have htr := challenge_trace_force m.correspondence_game_done active_games mg env
  constructor
  · rcases htr.1 with h | h <;> rw [h, hbg.1] <;> rfl
  · rw [htr.2, hbg.2]

/-- Counterexample to C8 as stated: in `mC8c` the flag is set but the
correspondence target is already met, so the next tick calls the
eligibility check only with `ignore_min_wait = false` (from the real-time
path) and the flag survives the tick. -/
theorem C8_counterexample :
    mC8c.force_immediate_challenge = true ∧
    (mC8c.challenge ∅ false 3 envC7).2.sc_calls = [(false, false)] ∧
    (mC8c.challenge ∅ false 3 envC7).1.force_immediate_challenge = true := by
  decide

/-- Witness for C8 on a tracker below the correspondence target. -/
theorem C8_witness :
    ((mC8w.correspondence_game_done.challenge ∅ false 3 envC7).2.sc_calls.head?
        = some (true, true)) ∧
    (mC8w.correspondence_game_done.challenge ∅ false 3 envC7).1.force_immediate_challenge
      = false :=
  C8_force_immediate_one_shot mC8w (MatchmakingSlots.init 3) ∅ 3 envC7 rfl (by decide) (by decide)

end LichessBot
